import Mathlib

/-!
Shallow embedding of `nuitka/importing/Recursion.py`: the decision engine
(`_decideRecursion` / `decideRecursion`), the recursion driver (`recurseTo`),
the used-module consumer (`considerUsedModules`) and the filesystem/pattern
walker (`checkPluginSinglePath`, `_addIncludedModule`,
`checkPluginFilenamePattern`).

External collaborators (Options, Plugins, PGO, StandardLibrary, Importing,
filesystem primitives, the Builder) are modelled as oracle functions carried
in an environment record `Env`; mutable process state (the import cache, the
decision cache, emitted diagnostics, raised signals, registered roots) is an
explicit state record `RecState` threaded through the functions.  Fatal
process exits (`recursion_logger.sysexit`) and failed assertions are the
`Except.error` channel of the affected functions.
-/

namespace Nuitka

/-- A dotted module name (`nuitka.utils.ModuleNames.ModuleName`), as its list
of dot-separated segments. -/
abbrev ModuleName := List String

/-- Modelled from the spec: `ModuleName.getBasename` extracts the last
segment of the dotted name. -/
def getBasename (n : ModuleName) : Option String := n.getLast?

/-- Modelled from the spec: `ModuleName.getPackageName` is the enclosing
package name, `none` for a top-level name. -/
def getPackageName (n : ModuleName) : Option ModuleName :=
  if n.length ≤ 1 then none else some n.dropLast

/-- Render a dotted name (`ModuleName.asString`). -/
def asString (n : ModuleName) : String := String.intercalate "." n

/-- Modelled from the spec: `ModuleName.makeModuleNameInPackage` prefixes the
name with the package it lives in, when there is one. -/
def makeModuleNameInPackage (n : ModuleName) (pkg : Option ModuleName) : ModuleName :=
  match pkg with
  | some p => p ++ n
  | none => n

/-- `suffix` is a suffix of `s` (used for the `.endswith` checks of the
source; goes through the character lists so concrete instances evaluate). -/
def strEndsWith (s suffix : String) : Bool := suffix.data.isSuffixOf s.data

/-- The payload of `NuitkaForbiddenImportEncounter`: `args[0]` is the
forbidden module name, `args[1]` the module the policy meant to keep out. -/
structure ForbiddenImport where
  forbidden_name : String
  avoided_name : String
deriving DecidableEq, Repr

/-- One discovered import edge of a built module, as consumed by
`considerUsedModules` (the fields of Nuitka's `UsedModule` records that the
source file reads). -/
structure UsedModule where
  module_name : ModuleName
  filename : Option String
  module_kind : String
  finding : String
  level : Int
  source_ref : String
deriving DecidableEq, Repr

/-- Which of the `ModuleRecord` classification predicates used by
`_addIncludedModule` holds for a built module. -/
inductive RecordKind where
  | compiledPackage
  | uncompiledPackage
  | compiledModule
  | uncompiledModule
  | extensionModule
  | technicalModule
deriving DecidableEq, Repr

/-- A built module record: identity `(module_name, module_filename)` plus the
attributes the source file reads from it. -/
structure ModuleRecord where
  module_name : ModuleName
  module_filename : String
  module_kind : String
  source_ref : String
  recordKind : RecordKind
  used_modules : List UsedModule
deriving DecidableEq, Repr

/-- What `Building.buildModule` contributes beyond the requested identity:
the record attributes and the `is_added` flag of its return value. -/
structure BuildResult where
  source_ref : String
  recordKind : RecordKind
  used_modules : List UsedModule
  is_added : Bool
deriving DecidableEq, Repr

/-- The run-constant command line options consulted by the source file. -/
structure Options where
  hasPythonFlagPackageMode : Bool
  shallMakeModule : Bool
  isStandaloneMode : Bool
  shallFollowStandardLibrary : Bool
  shallFollowAllImports : Bool
  shallFollowNoImports : Bool
  getShallFollowInNoCase : List String
  getShallFollowModules : List String
  isShowInclusion : Bool

/-- The key of the memoized decision cache `_recursion_decision_cache`:
`(module_filename, module_name, module_kind, extra_recursion)`. -/
abbrev DecisionKey := String × ModuleName × String × Bool

/-- The mutable process state threaded through the embedded functions: the
identity cache, the decision cache, and the observable event logs (builder
invocations, plugin recursion hooks, raised signals, warnings, info lines,
registered root modules, registered module-usage edges). -/
structure RecState where
  importCache : List ((ModuleName × String) × ModuleRecord)
  decisionCache : List (DecisionKey × (Option Bool × String))
  builderCalls : List (ModuleName × String × String)
  recursionHookCalls : List (String × ModuleName × String × Option ModuleName × Option String)
  signals : List (String × String × String)
  warnings : List String
  infos : List String
  rootModules : List ModuleRecord
  usedModuleRegs : List (ModuleName × ModuleName × String × String × String)
deriving DecidableEq, Repr

/-- The state of a fresh compilation run: everything empty. -/
def emptyState : RecState :=
  { importCache := [], decisionCache := [], builderCalls := [], recursionHookCalls := []
    signals := [], warnings := [], infos := [], rootModules := [], usedModuleRegs := [] }

/-- The external collaborators of `Recursion.py`, as oracle functions fixed
for the run: options, the plugin layer, the standard library classifier, PGO,
the compilation mode decision, filesystem primitives and the Builder.
`onModuleEncounter` and `considerImplicitImports` may raise
`NuitkaForbiddenImportEncounter`, hence their `Except` results. -/
structure Env where
  options : Options
  onModuleEncounter : String → ModuleName → String → Except ForbiddenImport (Option (Option Bool × String))
  isStandardLibraryPath : String → Bool
  isStandardLibraryNoAutoInclusionModule : ModuleName → Bool
  decideCompilationMode : ModuleName → String
  decideInclusionFromPGO : ModuleName → String → Option Bool
  runtimePackageValue : Option ModuleName
  matchesModulePattern : ModuleName → String → Bool
  buildModule : ModuleName → String → String → BuildResult
  considerImplicitImports : ModuleRecord → RecState → Except ForbiddenImport RecState
  abspath : String → String
  dirname : String → String
  basename : String → String
  isFile : String → Bool
  isDir : String → Bool
  pathExists : String → Bool
  isPackageDir : String → Bool
  listDir : String → List (String × String)
  iglob : String → List String
  getModuleNameAndKindFromFilename : String → ModuleName × Option String

/-- Modelled from the spec: `ModuleName.matchesToShellPatterns` matches the
dotted name against an ordered list of shell glob patterns; the first match
wins and is reported back as the reason text. -/
def matchesToShellPatterns (env : Env) (n : ModuleName) (patterns : List String) : Bool × String :=
  match patterns.find? (fun p => env.matchesModulePattern n p) with
  | some p => (true, p)
  | none => (false, "")

/-- `_decideRecursion` of `Recursion.py`: the ordered policy chain rendering
an `Include (some true) / Exclude (some false) / Undecided (none)` decision
with a reason.  The PGO block is written with its continuation bound to
`after_pgo` so the two fall-through paths share one expression. -/
def _decideRecursion (env : Env) (module_filename : String) (module_name : ModuleName)
    (module_kind : String) (extra_recursion : Bool) :
    Except ForbiddenImport (Option Bool × String) :=
  if module_name = ["__main__"] then
    .ok (some false, "Main program is not followed to a second time.")
  else if env.options.hasPythonFlagPackageMode = true ∧ env.options.shallMakeModule = false
      ∧ getBasename module_name = some "__main__"
      ∧ getPackageName module_name = env.runtimePackageValue then
    .ok (some false, "Main program is already included in package mode.")
  else
    match env.onModuleEncounter module_filename module_name module_kind with
    | .error e => .error e
    | .ok (some plugin_decision) => .ok plugin_decision
    | .ok none =>
      if module_kind = "extension" then
        if env.options.isStandaloneMode then
          .ok (some true, "Extension module needed for standalone mode.")
        else
          .ok (some false, "Extension module cannot be inspected.")
      else
        let is_stdlib := env.isStandardLibraryPath module_filename
        let after_pgo : Except ForbiddenImport (Option Bool × String) :=
          let no_case := matchesToShellPatterns env module_name env.options.getShallFollowInNoCase
          if no_case.1 then
            .ok (some false, "Module " ++ no_case.2 ++ " instructed by user to not follow to.")
          else
            let any_case := matchesToShellPatterns env module_name env.options.getShallFollowModules
            if any_case.1 then
              .ok (some true, "Module " ++ any_case.2 ++ " instructed by user to follow to.")
            else if extra_recursion then
              .ok (some true, "Lives in plug-in directory.")
            else if is_stdlib = true ∧ env.options.shallFollowStandardLibrary = true then
              .ok (some true, "Instructed by user to follow to standard library.")
            else if env.options.shallFollowAllImports = true ∧ is_stdlib = true
                ∧ env.isStandardLibraryNoAutoInclusionModule module_name = true then
              .ok (some true, "Instructed by user to follow all modules, including non-automatic standard library modules.")
            else if env.options.shallFollowAllImports = true ∧ is_stdlib = false then
              .ok (some true, "Instructed by user to follow to all non-standard library modules.")
            else if env.options.shallFollowNoImports then
              .ok (none, "Instructed by user to not follow at all.")
            else
              .ok (none, "Default behavior in non-standalone mode, not following without request.")
        if (is_stdlib = false ∨ env.options.shallFollowStandardLibrary = true)
            ∧ env.decideCompilationMode module_name = "compiled" then
          match env.decideInclusionFromPGO module_name module_kind with
          | some pgo_decision => .ok (some pgo_decision, "PGO based decision")
          | none => after_pgo
        else after_pgo

/-- Lookup in the memoized decision cache. -/
def lookupDecision (cache : List (DecisionKey × (Option Bool × String))) (k : DecisionKey) :
    Option (Option Bool × String) :=
  (cache.find? (fun e => decide (e.1 = k))).map Prod.snd

/-- `decideRecursion` of `Recursion.py`: the memoizing wrapper around
`_decideRecursion`.  A raised forbidden-import exception propagates without
being cached. -/
def decideRecursion (env : Env) (module_filename : String) (module_name : ModuleName)
    (module_kind : String) (extra_recursion : Bool) (s : RecState) :
    Except ForbiddenImport (Option Bool × String) × RecState :=
  let key : DecisionKey := (module_filename, module_name, module_kind, extra_recursion)
  match lookupDecision s.decisionCache key with
  | some v => (.ok v, s)
  | none =>
    match _decideRecursion env module_filename module_name module_kind extra_recursion with
    | .ok v => (.ok v, { s with decisionCache := (key, v) :: s.decisionCache })
    | .error e => (.error e, s)

/-- Modelled from the spec: the Identity Cache (`ImportCache`) maps the
`(name, canonical file)` identity of a module to its already-built record;
`addImportedModule` registers a record under its own identity. -/
def addImportedModule (cache : List ((ModuleName × String) × ModuleRecord)) (m : ModuleRecord) :
    List ((ModuleName × String) × ModuleRecord) :=
  ((m.module_name, m.module_filename), m) :: cache

/-- Modelled from the spec: `ImportCache.getImportedModuleByNameAndPath`
looks an identity up in the Identity Cache. -/
def getImportedModuleByNameAndPath (cache : List ((ModuleName × String) × ModuleRecord))
    (n : ModuleName) (fn : String) : Option ModuleRecord :=
  (cache.find? (fun e => decide (e.1 = (n, fn)))).map Prod.snd

/-- The record `Building.buildModule` constructs for a request: the requested
identity plus the Builder's contribution. -/
def mkModuleRecord (module_name : ModuleName) (module_filename : String) (module_kind : String)
    (r : BuildResult) : ModuleRecord :=
  { module_name := module_name, module_filename := module_filename, module_kind := module_kind
    source_ref := r.source_ref, recordKind := r.recordKind, used_modules := r.used_modules }

/-- `_recurseTo` of `Recursion.py`: delegate to the Builder, then register
the fresh record in the Identity Cache; returns the record and the
`is_added` flag. -/
def _recurseTo (env : Env) (module_name : ModuleName) (module_filename module_kind : String)
    (s : RecState) : (ModuleRecord × Bool) × RecState :=
  let r := env.buildModule module_name module_filename module_kind
  let module := mkModuleRecord module_name module_filename module_kind r
  ((module, r.is_added),
    { s with builderCalls := s.builderCalls ++ [(module_name, module_filename, module_kind)]
             importCache := addImportedModule s.importCache module })

/-- `recurseTo` of `Recursion.py`: the recursion driver.  On an Identity
Cache hit the cached record is returned untouched; on a miss the plugin
recursion hook is observed, the Builder runs, and — when the build was
genuinely new (`is_added`) and a signal callback was passed
(`signal_change is not None`, here `signal_change = true`) — the
`new_code` signal is raised with the module's source reference and the
inclusion reason. -/
def recurseTo (env : Env) (signal_change : Bool) (module_name : ModuleName)
    (module_filename module_kind : String) (using_module_name : Option ModuleName)
    (source_ref : Option String) (reason : String) (s : RecState) : ModuleRecord × RecState :=
  match getImportedModuleByNameAndPath s.importCache module_name module_filename with
  | some module => (module, s)
  | none =>
    let s1 := { s with recursionHookCalls := s.recursionHookCalls
        ++ [(module_filename, module_name, module_kind, using_module_name, source_ref)] }
    let br := _recurseTo env module_name module_filename module_kind s1
    let s3 := { br.2 with signals :=
      if br.1.2 = true ∧ signal_change = true then
        br.2.signals ++ [("new_code", br.1.1.source_ref, reason)]
      else br.2.signals }
    (br.1.1, s3)

/-- The full dotted name of a record (`module.getFullName()`), rendered. -/
def fullNameString (m : ModuleRecord) : String := asString m.module_name

/-- Modelled from the spec: `Importing.warnAbout` renders the
unresolved-import warning for an edge whose name resolved to no file. -/
def unresolvedImportWarning (module : ModuleRecord) (um : UsedModule) : String :=
  "Cannot resolve import of '" ++ asString um.module_name ++ "' in module '"
    ++ fullNameString module ++ "' at '" ++ um.source_ref ++ "'."

/-- The fatal diagnostic of `considerUsedModules` for a forbidden import hit
while deciding an explicit edge. -/
def forbiddenEdgeMessage (e : ForbiddenImport) (module : ModuleRecord) (um : UsedModule) : String :=
  "Error, forbidden import of '" ++ e.forbidden_name ++ "' (intending to avoid '"
    ++ e.avoided_name ++ "') in module '" ++ fullNameString module ++ "' at '"
    ++ um.source_ref ++ "' encountered."

/-- The fatal diagnostic of `considerUsedModules` for a forbidden import
raised by the plugin implicit-imports pass. -/
def forbiddenImplicitMessage (e : ForbiddenImport) (module : ModuleRecord) : String :=
  "Error, forbidden import of '" ++ e.forbidden_name ++ "' (intending to avoid '"
    ++ e.avoided_name ++ "') done implicitly by module '" ++ fullNameString module ++ "'."

/-- The warning step at the top of the per-edge loop body of
`considerUsedModules`: warn exactly when the edge's finding is
`"not-found"`. -/
def warnUpdate (module : ModuleRecord) (um : UsedModule) (s : RecState) : RecState :=
  if um.finding = "not-found" then
    { s with warnings := s.warnings ++ [unresolvedImportWarning module um] }
  else s

/-- The decide-and-recurse part of the per-edge loop body of
`considerUsedModules`, reached only when the edge has a resolved filename:
run the Decision Engine; on a truthy decision recurse and register the usage
edge; a forbidden-import exception becomes the fatal edge diagnostic
(`recursion_logger.sysexit`). -/
def edgeDecidePhase (env : Env) (module : ModuleRecord) (signal_change : Bool)
    (um : UsedModule) (fn : String) (s : RecState) : Except String RecState :=
  match decideRecursion env fn um.module_name um.module_kind false s with
  | (.error e, _) => .error (forbiddenEdgeMessage e module um)
  | (.ok (decision, reason), s1) =>
    if decision = some true then
      let nr := recurseTo env signal_change um.module_name fn um.module_kind
        (some module.module_name) (some um.source_ref) reason s1
      .ok { nr.2 with usedModuleRegs := nr.2.usedModuleRegs
        ++ [(nr.1.module_name, module.module_name, "import", reason, um.source_ref)] }
    else .ok s1

/-- One iteration of the edge loop of `considerUsedModules`: warn on a
`"not-found"` finding, then skip the edge when it has no resolved filename,
else decide and possibly recurse. -/
def processUsedModule (env : Env) (module : ModuleRecord) (signal_change : Bool)
    (um : UsedModule) (s : RecState) : Except String RecState :=
  let s1 := warnUpdate module um s
  match um.filename with
  | none => .ok s1
  | some fn => edgeDecidePhase env module signal_change um fn s1

/-- The edge loop of `considerUsedModules` over the module's discovered
edges; a fatal diagnostic stops the loop. -/
def considerUsedModulesLoop (env : Env) (module : ModuleRecord) (signal_change : Bool) :
    List UsedModule → RecState → Except String RecState
  | [], s => .ok s
  | um :: rest, s =>
    match processUsedModule env module signal_change um s with
    | .error msg => .error msg
    | .ok s1 => considerUsedModulesLoop env module signal_change rest s1

/-- `considerUsedModules` of `Recursion.py`: drain the module's discovered
edges of imports, then run the plugin implicit-imports pass; a forbidden-import
exception from either path aborts the whole run with its fatal
diagnostic. -/
def considerUsedModules (env : Env) (module : ModuleRecord) (signal_change : Bool)
    (s : RecState) : Except String RecState :=
  match considerUsedModulesLoop env module signal_change module.used_modules s with
  | .error msg => .error msg
  | .ok s1 =>
    match env.considerImplicitImports module s1 with
    | .error e => .error (forbiddenImplicitMessage e module)
    | .ok s2 => .ok s2

/-- `isSameModulePath` of `Recursion.py`: resolve a package init file to its
directory on either side, then compare absolute paths. -/
def isSameModulePath (env : Env) (path1 path2 : String) : Bool :=
  let path1 := if env.basename path1 = "__init__.py" then env.dirname path1 else path1
  let path2 := if env.basename path2 = "__init__.py" then env.dirname path2 else path2
  decide (env.abspath path1 = env.abspath path2)

/-- A `recursion_logger.info` line, emitted only under
`Options.isShowInclusion()`. -/
def infoLog (env : Env) (msg : String) (s : RecState) : RecState :=
  if env.options.isShowInclusion then { s with infos := s.infos ++ [msg] } else s

/-- Rendering of the `module_package` value in the walker's info lines
(Python prints `None` for a missing package). -/
def renderPackage (pkg : Option ModuleName) : String :=
  match pkg with
  | some p => asString p
  | none => "None"

/-- `ModuleRegistry.addRootModule`, modelled as appending to the root
registry log. -/
def addRootModule (m : ModuleRecord) (s : RecState) : RecState :=
  { s with rootModules := s.rootModules ++ [m] }

/-- The walker's warning for an extension module requested outside
standalone mode. -/
def cannotIncludeExtensionWarning (module_name : ModuleName) : String :=
  "Cannot include extension module '" ++ asString module_name
    ++ "' unless using at least standalone mode, where they would be copied."

/-- The walker's warning for an explicit inclusion denied by the Decision
Engine. -/
def notAllowedWarning (module_name : ModuleName) (reason : String) : String :=
  "Not allowed to include module '" ++ asString module_name ++ "' due to '" ++ reason ++ "'."

/-- The state right after the inclusion log line and the Identity Cache
registration at the top of `_addIncludedModule` (the module repr of the
source's `"Included '%s' as '%s'."` line is elided). -/
def includedBase (env : Env) (module : ModuleRecord) (s : RecState) : RecState :=
  let s := infoLog env ("Included '" ++ fullNameString module ++ "'.") s
  { s with importCache := addImportedModule s.importCache module }

/-- The loop body of `_addIncludedModule`'s directory traversal for one
immediate child `(sub_path, sub_filename)`: skip the package's own init
entry and the bytecode cache directory; single-path-check a sub-package
directory not shadowed by a same-named `.py` file, or a `.py` source
file. -/
def packageChildStep (env : Env)
    (singlePath : String → Option ModuleName → RecState → Except String RecState)
    (pkg : ModuleName) (s : RecState) (child : String × String) : Except String RecState :=
  if child.2 = "__init__.py" ∨ child.2 = "__pycache__" then .ok s
  else if env.isPackageDir child.1 = true ∧ env.pathExists (child.1 ++ ".py") = false then
    singlePath child.1 (some pkg) s
  else if strEndsWith child.1 ".py" then
    singlePath child.1 (some pkg) s
  else .ok s

/-- The `for sub_path, sub_filename in listDir(package_dir)` loop of
`_addIncludedModule`, as explicit recursion over the directory listing. -/
def packageChildLoop (env : Env)
    (singlePath : String → Option ModuleName → RecState → Except String RecState)
    (pkg : ModuleName) : List (String × String) → RecState → Except String RecState
  | [], s => .ok s
  | child :: rest, s =>
    match packageChildStep env singlePath pkg s child with
    | .error m => .error m
    | .ok s1 => packageChildLoop env singlePath pkg rest s1

/-- Run a single-path check over a list of paths in order, stopping at the
first fatal error (the shape shared by the traversal and pattern loops). -/
def singlePathLoop (singlePath : String → Option ModuleName → RecState → Except String RecState)
    (pkg : Option ModuleName) : List String → RecState → Except String RecState
  | [], s => .ok s
  | p :: rest, s =>
    match singlePath p pkg s with
    | .error m => .error m
    | .ok s1 => singlePathLoop singlePath pkg rest s1

/-- `_addIncludedModule` of `Recursion.py`, parametrized by the single-path
check it recurses into for package children: log and register the record;
for a package, determine the package directory (the file's directory for a
filesystem-backed package, which is also registered as a root; the directory
itself for a namespace package, the source's `assert python_version >= 0x300`
holding trivially in the Python-3 model), then traverse its immediate
children; an ordinary module is registered as a root; an extension module is
registered as a root only in standalone mode; any other kind is the
defensive `assert False`. -/
def addIncludedCore (env : Env)
    (singlePath : String → Option ModuleName → RecState → Except String RecState)
    (module : ModuleRecord) (s : RecState) : Except String RecState :=
  let s := includedBase env module s
  if module.recordKind = .compiledPackage ∨ module.recordKind = .uncompiledPackage then
    let package_filename := module.module_filename
    let package_dir := if env.isDir package_filename then package_filename
      else env.dirname package_filename
    let s := if env.isDir package_filename then s else addRootModule module s
    let s := infoLog env ("Package directory '" ++ package_dir ++ "'.") s
    packageChildLoop env singlePath module.module_name (env.listDir package_dir) s
  else if module.recordKind = .compiledModule ∨ module.recordKind = .uncompiledModule then
    .ok (addRootModule module s)
  else if module.recordKind = .extensionModule then
    .ok (if env.options.isStandaloneMode then addRootModule module s else s)
  else
    .error ("Assertion failed: unexpected module kind for '" ++ fullNameString module ++ "'.")

/-- `checkPluginSinglePath` of `Recursion.py`, parametrized by the
post-inclusion bookkeeping it delegates to: canonicalize the path, classify
it into a name and kind, warn about a non-embeddable extension request, run
the Decision Engine with the explicit-request flag set, and on a truthy
decision build via the recursion driver — with no signal callback
(`signal_change=None`) — then perform the post-inclusion bookkeeping; a
denied inclusion is warned about.  The Builder of this model always yields a
record, so the source's `if module:` guard is always taken; an uncaught
forbidden-import exception propagates as an error. -/
def singlePathCore (env : Env)
    (addIncluded : ModuleRecord → RecState → Except String RecState)
    (plugin_filename0 : String) (module_package : Option ModuleName) (s : RecState) :
    Except String RecState :=
  let plugin_filename := env.abspath plugin_filename0
  let s := infoLog env ("Checking detail plug-in path '" ++ plugin_filename ++ "' '"
    ++ renderPackage module_package ++ "':") s
  let nk := env.getModuleNameAndKindFromFilename plugin_filename
  let module_name := makeModuleNameInPackage nk.1 module_package
  let s := if nk.2 = some "extension" ∧ env.options.isStandaloneMode = false then
      { s with warnings := s.warnings ++ [cannotIncludeExtensionWarning module_name] }
    else s
  match nk.2 with
  | none => .ok s
  | some module_kind =>
    match decideRecursion env plugin_filename module_name module_kind true s with
    | (.error e, _) =>
      .error ("Uncaught forbidden import of '" ++ e.forbidden_name ++ "' (intending to avoid '"
        ++ e.avoided_name ++ "').")
    | (.ok (decision, reason), s1) =>
      if decision = some true then
        let nr := recurseTo env false module_name plugin_filename module_kind none none reason s1
        addIncluded nr.1 nr.2
      else
        .ok { s1 with warnings := s1.warnings ++ [notAllowedWarning module_name reason] }

/-- The mutual recursion of `checkPluginSinglePath` and `_addIncludedModule`
through package-tree traversal, bounded by a fuel parameter for the
directory depth (the filesystem is finite; exhausted fuel is an error). -/
def checkPluginSinglePath (env : Env) :
    Nat → String → Option ModuleName → RecState → Except String RecState
  | 0, _, _, _ => .error "Recursion limit exceeded in package traversal."
  | Nat.succ fuel, fn, pkg, s =>
    singlePathCore env
      (fun m st => addIncludedCore env (fun f p st2 => checkPluginSinglePath env fuel f p st2) m st)
      fn pkg s

/-- `_addIncludedModule` at a given traversal depth budget. -/
def _addIncludedModule (env : Env) (fuel : Nat) (module : ModuleRecord) (s : RecState) :
    Except String RecState :=
  addIncludedCore env (fun f p st => checkPluginSinglePath env fuel f p st) module s

/-- The `"Didn't match any files"` warning of `checkPluginFilenamePattern`. -/
def patternWarning (pat : String) : String :=
  "Didn't match any files against pattern '" ++ pat ++ "'."

/-- The glob-match loop of `checkPluginFilenamePattern`: skip stale
bytecode artifacts (`.pyc`) and non-files; each remaining match sets the
`found` flag and is delegated to the single-path check. -/
def patternLoop (env : Env) (fuel : Nat) :
    List String → Bool → RecState → Except String (RecState × Bool)
  | [], found, s => .ok (s, found)
  | fn :: rest, found, s =>
    if strEndsWith fn ".pyc" then patternLoop env fuel rest found s
    else if env.isFile fn = false then patternLoop env fuel rest found s
    else
      match checkPluginSinglePath env fuel fn none s with
      | .error m => .error m
      | .ok s1 => patternLoop env fuel rest true s1

/-- `checkPluginFilenamePattern` of `Recursion.py`: expand the glob,
delegate every usable match to the single-path check, and warn once when
nothing usable matched; the source's `assert not os.path.isdir(pattern)` is
the error case. -/
def checkPluginFilenamePattern (env : Env) (fuel : Nat) (pat : String) (s : RecState) :
    Except String RecState :=
  let s := infoLog env ("Checking plug-in pattern '" ++ pat ++ "':") s
  if env.isDir pat then .error ("Assertion failed: pattern is a directory: " ++ pat)
  else
    match patternLoop env fuel (env.iglob pat) false s with
    | .error m => .error m
    | .ok sf =>
      .ok (if sf.2 = false then
          { sf.1 with warnings := sf.1.warnings ++ [patternWarning pat] }
        else sf.1)

/-- Options of a plain run: every flag off, no patterns. -/
def baseOptions : Options :=
  { hasPythonFlagPackageMode := false, shallMakeModule := false, isStandaloneMode := false
    shallFollowStandardLibrary := false, shallFollowAllImports := false
    shallFollowNoImports := false, getShallFollowInNoCase := [], getShallFollowModules := []
    isShowInclusion := false }

/-- A concrete environment for evaluating the model: plain options, passive
plugins and PGO, a Builder that yields a fresh ordinary source module. -/
def baseEnv : Env :=
  { options := baseOptions
    onModuleEncounter := fun _ _ _ => .ok none
    isStandardLibraryPath := fun _ => false
    isStandardLibraryNoAutoInclusionModule := fun _ => false
    decideCompilationMode := fun _ => "compiled"
    decideInclusionFromPGO := fun _ _ => none
    runtimePackageValue := none
    matchesModulePattern := fun _ _ => false
    buildModule := fun _ _ _ =>
      { source_ref := "src:1", recordKind := .compiledModule, used_modules := [], is_added := true }
    considerImplicitImports := fun _ s => .ok s
    abspath := fun p => p
    dirname := fun _ => "pkg"
    basename := fun p => p
    isFile := fun _ => true
    isDir := fun _ => false
    pathExists := fun _ => false
    isPackageDir := fun _ => false
    listDir := fun _ => []
    iglob := fun _ => []
    getModuleNameAndKindFromFilename := fun _ => (["p"], some "py") }

/-- Follows the spec's words (C8): two paths denote the same module identity
when, after resolving a package's init file to its containing directory,
their absolute forms are equal. -/
def sameModuleIdentityPerSpec (env : Env) (path1 path2 : String) : Prop :=
  env.abspath (if env.basename path1 = "__init__.py" then env.dirname path1 else path1)
    = env.abspath (if env.basename path2 = "__init__.py" then env.dirname path2 else path2)

/-- C8: for every pair of paths, `isSameModulePath` returns true exactly
when, after replacing a path whose basename is `__init__.py` by its
containing directory, the absolute forms of the two paths are equal. -/
theorem isSameModulePath_iff_sameIdentity (env : Env) (path1 path2 : String) :
    isSameModulePath env path1 path2 = true ↔ sameModuleIdentityPerSpec env path1 path2 := by
  simp [isSameModulePath, sameModuleIdentityPerSpec]

/-- C2: when evaluation reaches the pattern checks (the name is not the main
module, the package-mode check does not fire, the plugin layer renders no
decision, the kind is not an extension module, and PGO renders no decision),
a module name matching a never-follow pattern is excluded — whatever the
always-follow patterns say, since never-follow patterns are evaluated
first. -/
theorem decideRecursion_neverFollow_wins (env : Env) (fn : String) (n : ModuleName)
    (k : String) (er : Bool)
    (hmain : n ≠ ["__main__"])
    (hpkg : ¬(env.options.hasPythonFlagPackageMode = true ∧ env.options.shallMakeModule = false
      ∧ getBasename n = some "__main__" ∧ getPackageName n = env.runtimePackageValue))
    (hplugin : env.onModuleEncounter fn n k = .ok none)
    (hext : k ≠ "extension")
    (hpgo : env.decideInclusionFromPGO n k = none)
    (hno : (matchesToShellPatterns env n env.options.getShallFollowInNoCase).1 = true) :
    _decideRecursion env fn n k er
      = .ok (some false, "Module " ++ (matchesToShellPatterns env n env.options.getShallFollowInNoCase).2
          ++ " instructed by user to not follow to.") := by
  unfold _decideRecursion
  rw [if_neg hmain, if_neg hpkg, hplugin]
  simp only [if_neg hext, hpgo, hno, if_true]
  split <;> simp [hno]

/-- C2 witness: a concrete name matching both a never-follow and an
always-follow pattern is excluded. -/
theorem decideRecursion_neverFollow_wins_witness :
    _decideRecursion
      { baseEnv with
        options := { baseOptions with getShallFollowInNoCase := ["a*"], getShallFollowModules := ["a*"] }
        matchesModulePattern := fun _ _ => true }
      "a.py" ["a"] "py" false
      = .ok (some false, "Module a* instructed by user to not follow to.") := by
  have h := decideRecursion_neverFollow_wins
    { baseEnv with
      options := { baseOptions with getShallFollowInNoCase := ["a*"], getShallFollowModules := ["a*"] }
      matchesModulePattern := fun _ _ => true }
    "a.py" ["a"] "py" false (by decide) (by simp [baseEnv, baseOptions]) rfl (by decide) rfl rfl
  exact h

/-- C3: for an extension module that is not the main module, is not skipped
by the package-mode check, and gets no plugin decision, the decision is
Include exactly when the build is standalone; no other option can include an
extension module outside standalone mode. -/
theorem decideRecursion_extension_standalone_gate (env : Env) (fn : String) (n : ModuleName)
    (er : Bool)
    (hmain : n ≠ ["__main__"])
    (hpkg : ¬(env.options.hasPythonFlagPackageMode = true ∧ env.options.shallMakeModule = false
      ∧ getBasename n = some "__main__" ∧ getPackageName n = env.runtimePackageValue))
    (hplugin : env.onModuleEncounter fn n "extension" = .ok none) :
    _decideRecursion env fn n "extension" er
      = .ok (if env.options.isStandaloneMode then
          (some true, "Extension module needed for standalone mode.")
        else (some false, "Extension module cannot be inspected."))
    ∧ (_decideRecursion env fn n "extension" er
        = .ok (some true, "Extension module needed for standalone mode.")
      ↔ env.options.isStandaloneMode = true) := by
  have hbase : _decideRecursion env fn n "extension" er
      = .ok (if env.options.isStandaloneMode then
          (some true, "Extension module needed for standalone mode.")
        else (some false, "Extension module cannot be inspected.")) := by
    unfold _decideRecursion
    rw [if_neg hmain, if_neg hpkg, hplugin]
    by_cases hs : env.options.isStandaloneMode = true <;> simp [hs]
  refine ⟨hbase, ?_⟩
  rw [hbase]
  cases hs : env.options.isStandaloneMode <;> simp

/-- C3 witness: with follow-all-imports enabled and an always-follow pattern
matching, an extension module is still excluded outside standalone mode, and
included in standalone mode. -/
theorem decideRecursion_extension_standalone_gate_witness :
    _decideRecursion
      { baseEnv with
        options := { baseOptions with shallFollowAllImports := true, getShallFollowModules := ["*"] }
        matchesModulePattern := fun _ _ => true }
      "m.so" ["m"] "extension" false
      = .ok (some false, "Extension module cannot be inspected.")
    ∧ _decideRecursion { baseEnv with options := { baseOptions with isStandaloneMode := true } }
        "m.so" ["m"] "extension" false
      = .ok (some true, "Extension module needed for standalone mode.") := by
  constructor
  · have h := decideRecursion_extension_standalone_gate
      { baseEnv with
        options := { baseOptions with shallFollowAllImports := true, getShallFollowModules := ["*"] }
        matchesModulePattern := fun _ _ => true }
      "m.so" ["m"] false (by decide) (by simp [baseEnv, baseOptions]) rfl
    exact h.1
  · have h := decideRecursion_extension_standalone_gate
      { baseEnv with options := { baseOptions with isStandaloneMode := true } }
      "m.so" ["m"] false (by decide) (by simp [baseEnv, baseOptions]) rfl
    exact h.1

theorem warnUpdate_frame (M : ModuleRecord) (um : UsedModule) (s : RecState) :
    (warnUpdate M um s).builderCalls = s.builderCalls
    ∧ (warnUpdate M um s).signals = s.signals
    ∧ (warnUpdate M um s).usedModuleRegs = s.usedModuleRegs := by
  unfold warnUpdate
  split <;> simp

theorem decideRecursion_state_frame (env : Env) (fn : String) (n : ModuleName) (k : String)
    (er : Bool) (s : RecState) :
    ((decideRecursion env fn n k er s).2).builderCalls = s.builderCalls
    ∧ ((decideRecursion env fn n k er s).2).signals = s.signals
    ∧ ((decideRecursion env fn n k er s).2).usedModuleRegs = s.usedModuleRegs
    ∧ ((decideRecursion env fn n k er s).2).warnings = s.warnings
    ∧ ((decideRecursion env fn n k er s).2).importCache = s.importCache
    ∧ ((decideRecursion env fn n k er s).2).infos = s.infos
    ∧ ((decideRecursion env fn n k er s).2).rootModules = s.rootModules
    ∧ ((decideRecursion env fn n k er s).2).recursionHookCalls = s.recursionHookCalls := by
  unfold decideRecursion
  cases h : lookupDecision s.decisionCache (fn, n, k, er)
  · cases h2 : _decideRecursion env fn n k er <;> simp [h, h2]
  · simp [h]

/-- C5 counterexample: with only follow-no-imports enabled and an imported
module B reached with no special instruction, the decision is Undecided with
the reason "Instructed by user to not follow at all." — a reason that does
not end in "not following without request.", contrary to the claim (that
text belongs to the default branch taken when follow-no-imports is not
set). -/
theorem decideRecursion_followNoImports_reason_counterexample :
    _decideRecursion { baseEnv with options := { baseOptions with shallFollowNoImports := true } }
      "B.py" ["B"] "py" false
      = .ok (none, "Instructed by user to not follow at all.")
    ∧ strEndsWith "Instructed by user to not follow at all."
        "not following without request." = false := by
  exact ⟨rfl, by decide⟩

/-- C5 as amended: with follow-no-imports enabled, an imported module B that
reaches the pattern checks with no matching pattern, no stdlib-following, no
explicit request and follow-all disabled gets `Undecided` with the reason
"Instructed by user to not follow at all." (not the claim's "not following
without request.", which is the default branch's reason); if B matches an
always-follow pattern the decision is instead Include with reason
"Module ... instructed by user to follow to."; and an edge whose decision is
Undecided triggers no build, no signal and no usage registration. -/
theorem decideRecursion_followNoImports_behavior (env : Env) (fn : String) (n : ModuleName)
    (k : String) (M : ModuleRecord) (sc : Bool) (um : UsedModule) (s : RecState) (r : String)
    (hmain : n ≠ ["__main__"])
    (hpkg : ¬(env.options.hasPythonFlagPackageMode = true ∧ env.options.shallMakeModule = false
      ∧ getBasename n = some "__main__" ∧ getPackageName n = env.runtimePackageValue))
    (hplugin : env.onModuleEncounter fn n k = .ok none)
    (hext : k ≠ "extension")
    (hpgo : env.decideInclusionFromPGO n k = none)
    (hnever : (matchesToShellPatterns env n env.options.getShallFollowInNoCase).1 = false)
    (hstd : ¬(env.isStandardLibraryPath fn = true ∧ env.options.shallFollowStandardLibrary = true))
    (hall : env.options.shallFollowAllImports = false)
    (hnofollow : env.options.shallFollowNoImports = true) :
    ((matchesToShellPatterns env n env.options.getShallFollowModules).1 = false →
      _decideRecursion env fn n k false = .ok (none, "Instructed by user to not follow at all."))
    ∧ ((matchesToShellPatterns env n env.options.getShallFollowModules).1 = true →
      _decideRecursion env fn n k false
        = .ok (some true, "Module "
            ++ (matchesToShellPatterns env n env.options.getShallFollowModules).2
            ++ " instructed by user to follow to."))
    ∧ (um.filename = some fn →
      (decideRecursion env fn um.module_name um.module_kind false (warnUpdate M um s)).1
        = .ok (none, r) →
      (processUsedModule env M sc um s).map
          (fun st => (st.builderCalls, st.signals, st.usedModuleRegs))
        = .ok (s.builderCalls, s.signals, s.usedModuleRegs)) := by
  refine ⟨?_, ?_, ?_⟩
  · intro hany
    unfold _decideRecursion
    rw [if_neg hmain, if_neg hpkg, hplugin]
    simp only [if_neg hext, hpgo]
    split
    · simp [hnever, hany, hstd, hall, hnofollow]
    · simp [hnever, hany, hstd, hall, hnofollow]
  · intro hany
    unfold _decideRecursion
    rw [if_neg hmain, if_neg hpkg, hplugin]
    simp only [if_neg hext, hpgo]
    split
    · simp [hnever, hany]
    · simp [hnever, hany]
  · intro hfile hdec
    have hframe := decideRecursion_state_frame env fn um.module_name um.module_kind false
      (warnUpdate M um s)
    have hw := warnUpdate_frame M um s
    simp only [processUsedModule, hfile]
    unfold edgeDecidePhase
    rcases hd : decideRecursion env fn um.module_name um.module_kind false (warnUpdate M um s)
      with ⟨res, s2⟩
    rw [hd] at hdec hframe
    simp only at hdec
    subst hdec
    simp only at hframe
    simp [Except.map, hframe.1, hframe.2.1, hframe.2.2.1, hw.1, hw.2.1, hw.2.2]

/-- C5 concrete options: only follow-no-imports set. -/
def c5Env : Env :=
  { baseEnv with options := { baseOptions with shallFollowNoImports := true } }

/-- C5 concrete options with an always-follow pattern matching everything. -/
def c5EnvB : Env :=
  { baseEnv with
    options := { baseOptions with shallFollowNoImports := true, getShallFollowModules := ["b*"] }
    matchesModulePattern := fun _ _ => true }

/-- The importing module A of the C5 scenario. -/
def c5Module : ModuleRecord :=
  { module_name := ["A"], module_filename := "A.py", module_kind := "py"
    source_ref := "A.py:1", recordKind := .compiledModule, used_modules := [] }

/-- The import edge A → B of the C5 scenario. -/
def c5Edge : UsedModule :=
  { module_name := ["B"], filename := some "B.py", module_kind := "py"
    finding := "absolute", level := 0, source_ref := "A.py:7" }

/-- C5 witness: the amended behavior at the concrete A-imports-B scenario. -/
theorem decideRecursion_followNoImports_behavior_witness :
    _decideRecursion c5Env "B.py" ["B"] "py" false
      = .ok (none, "Instructed by user to not follow at all.")
    ∧ _decideRecursion c5EnvB "B.py" ["B"] "py" false
      = .ok (some true, "Module b* instructed by user to follow to.")
    ∧ (processUsedModule c5Env c5Module true c5Edge emptyState).map
        (fun st => (st.builderCalls, st.signals, st.usedModuleRegs))
      = .ok ([], [], []) := by
  have h1 := decideRecursion_followNoImports_behavior c5Env "B.py" ["B"] "py" c5Module true
    c5Edge emptyState "Instructed by user to not follow at all."
    (by decide) (by simp [c5Env, baseEnv, baseOptions]) rfl (by decide) rfl rfl
    (by simp [c5Env, baseEnv, baseOptions]) rfl rfl
  have h2 := decideRecursion_followNoImports_behavior c5EnvB "B.py" ["B"] "py" c5Module true
    c5Edge emptyState "Instructed by user to not follow at all."
    (by decide) (by simp [c5EnvB, baseEnv, baseOptions]) rfl (by decide) rfl rfl
    (by simp [c5EnvB, baseEnv, baseOptions]) rfl rfl
  exact ⟨h1.1 rfl, h2.2.1 rfl, h1.2.2 rfl rfl⟩

theorem getImported_add_mk (cache : List ((ModuleName × String) × ModuleRecord))
    (n : ModuleName) (fn k : String) (r : BuildResult) :
    getImportedModuleByNameAndPath (addImportedModule cache (mkModuleRecord n fn k r)) n fn
      = some (mkModuleRecord n fn k r) := by
  simp [getImportedModuleByNameAndPath, addImportedModule, mkModuleRecord, List.find?]

theorem recurseTo_hit (env : Env) (sc : Bool) (n : ModuleName) (fn k : String)
    (u : Option ModuleName) (sr : Option String) (r : String) (s : RecState) (m : ModuleRecord)
    (hm : getImportedModuleByNameAndPath s.importCache n fn = some m) :
    recurseTo env sc n fn k u sr r s = (m, s) := by
  unfold recurseTo
  rw [hm]

/-- C1: `recurseTo` builds each `(name, file)` identity at most once.  On an
Identity Cache hit the cached record is returned and the state — builder
log, plugin recursion hook log, signal log — is untouched.  On a miss the
Builder and the recursion hook are invoked exactly once.  And whatever the
first request did, any second request for the same identity (from any edge)
returns the very same record and leaves the state unchanged: no rebuild, no
hook, no signal. -/
theorem recurseTo_at_most_once (env : Env) (sc sc2 : Bool) (n : ModuleName) (fn k : String)
    (u u2 : Option ModuleName) (sr sr2 : Option String) (r r2 : String) (s : RecState) :
    (∀ m, getImportedModuleByNameAndPath s.importCache n fn = some m →
      recurseTo env sc n fn k u sr r s = (m, s))
    ∧ (getImportedModuleByNameAndPath s.importCache n fn = none →
      ((recurseTo env sc n fn k u sr r s).2).builderCalls = s.builderCalls ++ [(n, fn, k)]
      ∧ ((recurseTo env sc n fn k u sr r s).2).recursionHookCalls
          = s.recursionHookCalls ++ [(fn, n, k, u, sr)])
    ∧ recurseTo env sc2 n fn k u2 sr2 r2 (recurseTo env sc n fn k u sr r s).2
        = ((recurseTo env sc n fn k u sr r s).1, (recurseTo env sc n fn k u sr r s).2) := by
  refine ⟨fun m hm => recurseTo_hit env sc n fn k u sr r s m hm, ?_, ?_⟩
  · intro hm
    unfold recurseTo
    rw [hm]
    constructor
    · simp [_recurseTo]
    · simp [_recurseTo]
  · cases hm : getImportedModuleByNameAndPath s.importCache n fn with
    | some m =>
      rw [recurseTo_hit env sc n fn k u sr r s m hm]
      exact recurseTo_hit env sc2 n fn k u2 sr2 r2 s m hm
    | none =>
      have hl : getImportedModuleByNameAndPath
            ((recurseTo env sc n fn k u sr r s).2).importCache n fn
          = some (recurseTo env sc n fn k u sr r s).1 := by
        unfold recurseTo
        rw [hm]
        simpa [_recurseTo] using getImported_add_mk _ n fn k (env.buildModule n fn k)
      exact recurseTo_hit env sc2 n fn k u2 sr2 r2 _ _ hl

/-- C1 witness: a fresh identity is built once with one hook call, and an
immediately repeated request returns the cached record with the state
untouched; the cache-hit case is also exercised directly. -/
theorem recurseTo_at_most_once_witness :
    ((recurseTo baseEnv true ["a"] "a.py" "py" none none "r" emptyState).2).builderCalls
      = [(["a"], "a.py", "py")]
    ∧ recurseTo baseEnv true ["a"] "a.py" "py" none none "r"
        (recurseTo baseEnv true ["a"] "a.py" "py" none none "r" emptyState).2
      = ((recurseTo baseEnv true ["a"] "a.py" "py" none none "r" emptyState).1,
         (recurseTo baseEnv true ["a"] "a.py" "py" none none "r" emptyState).2)
    ∧ recurseTo baseEnv false ["a"] "a.py" "py" none none "r2"
        (recurseTo baseEnv true ["a"] "a.py" "py" none none "r" emptyState).2
      = ((recurseTo baseEnv true ["a"] "a.py" "py" none none "r" emptyState).1,
         (recurseTo baseEnv true ["a"] "a.py" "py" none none "r" emptyState).2) := by
  have h := recurseTo_at_most_once baseEnv true true ["a"] "a.py" "py" none none none none
    "r" "r" emptyState
  have h2 := recurseTo_at_most_once baseEnv false false ["a"] "a.py" "py" none none none none
    "r2" "r2" (recurseTo baseEnv true ["a"] "a.py" "py" none none "r" emptyState).2
  exact ⟨(h.2.1 rfl).1, h.2.2,
    h2.1 (recurseTo baseEnv true ["a"] "a.py" "py" none none "r" emptyState).1 rfl⟩

/-- C10: in the edge loop of `considerUsedModules`, the unresolved-import
warning and the edge drop are governed independently: the warning fires
exactly when the edge's finding is `"not-found"`, while the edge is skipped
(no decision, no recursion, no usage registration) exactly when its resolved
filename is absent.  Hence a not-found edge that still carries a filename is
warned about and then still run through the Decision Engine, and an edge
with no filename but another finding is dropped with no warning at all. -/
theorem considerUsedModules_warn_and_skip_independent (env : Env) (M : ModuleRecord) (sc : Bool)
    (um : UsedModule) (s : RecState) (fn : String) :
    (um.filename = none →
      processUsedModule env M sc um s
        = .ok (if um.finding = "not-found" then
            { s with warnings := s.warnings ++ [unresolvedImportWarning M um] }
          else s))
    ∧ (um.filename = some fn → um.finding = "not-found" →
      processUsedModule env M sc um s
        = edgeDecidePhase env M sc um fn
            { s with warnings := s.warnings ++ [unresolvedImportWarning M um] })
    ∧ (um.filename = none → um.finding ≠ "not-found" →
      processUsedModule env M sc um s = .ok s) := by
  refine ⟨?_, ?_, ?_⟩
  · intro h
    simp [processUsedModule, h, warnUpdate]
  · intro h hf
    simp [processUsedModule, h, warnUpdate, hf]
  · intro h hf
    simp [processUsedModule, h, warnUpdate, hf]

/-- The importing module of the C10 witness. -/
def c10Mod : ModuleRecord :=
  { module_name := ["A"], module_filename := "A.py", module_kind := "py"
    source_ref := "A.py:1", recordKind := .compiledModule, used_modules := [] }

/-- C10 witness edge: not found and no filename. -/
def c10EdgeNoFile : UsedModule :=
  { module_name := ["missing"], filename := none, module_kind := "py"
    finding := "not-found", level := 0, source_ref := "A.py:2" }

/-- C10 witness edge: not found but with a filename. -/
def c10EdgeNF : UsedModule :=
  { module_name := ["B"], filename := some "B.py", module_kind := "py"
    finding := "not-found", level := 0, source_ref := "A.py:3" }

/-- C10 witness edge: no filename, finding other than not-found. -/
def c10EdgeSilent : UsedModule :=
  { module_name := ["C"], filename := none, module_kind := "py"
    finding := "built-in", level := 0, source_ref := "A.py:4" }

/-- C10 witness: the three edge shapes at concrete inputs. -/
theorem considerUsedModules_warn_and_skip_independent_witness :
    processUsedModule baseEnv c10Mod true c10EdgeNoFile emptyState
      = .ok { emptyState with warnings := [unresolvedImportWarning c10Mod c10EdgeNoFile] }
    ∧ processUsedModule baseEnv c10Mod true c10EdgeNF emptyState
      = edgeDecidePhase baseEnv c10Mod true c10EdgeNF "B.py"
          { emptyState with warnings := [unresolvedImportWarning c10Mod c10EdgeNF] }
    ∧ processUsedModule baseEnv c10Mod true c10EdgeSilent emptyState = .ok emptyState := by
  have h1 := considerUsedModules_warn_and_skip_independent baseEnv c10Mod true c10EdgeNoFile
    emptyState "B.py"
  have h2 := considerUsedModules_warn_and_skip_independent baseEnv c10Mod true c10EdgeNF
    emptyState "B.py"
  have h3 := considerUsedModules_warn_and_skip_independent baseEnv c10Mod true c10EdgeSilent
    emptyState "B.py"
  refine ⟨?_, ?_, ?_⟩
  · rw [h1.1 rfl]
    rfl
  · rw [h2.2.1 rfl rfl]
    rfl
  · exact h3.2.2 rfl (by decide)

theorem considerUsedModulesLoop_append_error (env : Env) (M : ModuleRecord) (sc : Bool)
    (um : UsedModule) (msg : String) :
    ∀ (pre : List UsedModule) (rest : List UsedModule) (s s1 : RecState),
      considerUsedModulesLoop env M sc pre s = .ok s1 →
      processUsedModule env M sc um s1 = .error msg →
      considerUsedModulesLoop env M sc (pre ++ um :: rest) s = .error msg := by
  intro pre
  induction pre with
  | nil =>
    intro rest s s1 hok hp
    simp only [considerUsedModulesLoop, Except.ok.injEq] at hok
    subst hok
    simp [considerUsedModulesLoop, hp]
  | cons a l ih =>
    intro rest s s1 hok hp
    simp only [considerUsedModulesLoop, List.cons_append] at hok ⊢
    cases hpa : processUsedModule env M sc a s with
    | error m =>
      rw [hpa] at hok
      exact absurd hok (by simp)
    | ok st =>
      rw [hpa] at hok
      exact ih rest st s1 hok hp

/-- C4: a forbidden-import signal raised while deciding an edge of a module
aborts the whole run with the fatal diagnostic naming the forbidden module,
the module it was meant to keep out, the importing module and the source
location — for every continuation `rest` of the edge list, so no subsequent
edge of the module (and no implicit import of it) is processed; and a
forbidden-import signal raised by the plugin implicit-imports pass aborts
with the diagnostic naming the forbidden module, the avoided module and the
importer. -/
theorem considerUsedModules_forbidden_abort (env : Env) (M : ModuleRecord) (sc : Bool)
    (pre rest : List UsedModule) (um : UsedModule) (fn : String) (e e2 : ForbiddenImport)
    (s s1 : RecState) :
    (M.used_modules = pre ++ um :: rest →
      considerUsedModulesLoop env M sc pre s = .ok s1 →
      um.filename = some fn →
      (decideRecursion env fn um.module_name um.module_kind false (warnUpdate M um s1)).1
        = .error e →
      considerUsedModules env M sc s = .error (forbiddenEdgeMessage e M um))
    ∧ (considerUsedModulesLoop env M sc M.used_modules s = .ok s1 →
      env.considerImplicitImports M s1 = .error e2 →
      considerUsedModules env M sc s = .error (forbiddenImplicitMessage e2 M)) := by
  constructor
  · intro hused hpre hfile hdec
    have hp : processUsedModule env M sc um s1 = .error (forbiddenEdgeMessage e M um) := by
      simp only [processUsedModule, hfile]
      unfold edgeDecidePhase
      rcases hd : decideRecursion env fn um.module_name um.module_kind false (warnUpdate M um s1)
        with ⟨res, s2⟩
      rw [hd] at hdec
      simp only at hdec
      subst hdec
      rfl
    unfold considerUsedModules
    rw [hused, considerUsedModulesLoop_append_error env M sc um _ pre rest s s1 hpre hp]
  · intro hloop himp
    unfold considerUsedModules
    rw [hloop]
    simp [himp]

/-- The C4 witness environment: the plugin layer raises
`NuitkaForbiddenImportEncounter("evil", "bloat")` when it encounters the
module named evil. -/
def c4Env : Env :=
  { baseEnv with
    onModuleEncounter := fun _ nm _ =>
      if nm = ["evil"] then .error { forbidden_name := "evil", avoided_name := "bloat" }
      else .ok none }

/-- The C4 witness edge importing the forbidden module. -/
def c4Edge : UsedModule :=
  { module_name := ["evil"], filename := some "evil.py", module_kind := "py"
    finding := "absolute", level := 0, source_ref := "A.py:3" }

/-- A further edge of the same module, never reached after the abort. -/
def c4After : UsedModule :=
  { module_name := ["after"], filename := some "after.py", module_kind := "py"
    finding := "absolute", level := 0, source_ref := "A.py:4" }

/-- The C4 witness module with a forbidden edge followed by another edge. -/
def c4Mod : ModuleRecord :=
  { module_name := ["A"], module_filename := "A.py", module_kind := "py"
    source_ref := "A.py:1", recordKind := .compiledModule
    used_modules := [c4Edge, c4After] }

/-- The C4 witness environment whose implicit-imports pass raises the
forbidden-import signal. -/
def c4EnvImplicit : Env :=
  { baseEnv with
    considerImplicitImports := fun _ _ =>
      .error { forbidden_name := "evil2", avoided_name := "bloat2" } }

/-- The C4 witness module with no explicit edges, for the implicit-imports
abort. -/
def c4ModImplicit : ModuleRecord :=
  { module_name := ["A2"], module_filename := "A2.py", module_kind := "py"
    source_ref := "A2.py:1", recordKind := .compiledModule, used_modules := [] }

/-- C4 witness: both abort paths at concrete inputs. -/
theorem considerUsedModules_forbidden_abort_witness :
    considerUsedModules c4Env c4Mod true emptyState
      = .error (forbiddenEdgeMessage
          { forbidden_name := "evil", avoided_name := "bloat" } c4Mod c4Edge)
    ∧ considerUsedModules c4EnvImplicit c4ModImplicit true emptyState
      = .error (forbiddenImplicitMessage
          { forbidden_name := "evil2", avoided_name := "bloat2" } c4ModImplicit) := by
  have h1 := considerUsedModules_forbidden_abort c4Env c4Mod true [] [c4After] c4Edge "evil.py"
    { forbidden_name := "evil", avoided_name := "bloat" }
    { forbidden_name := "evil", avoided_name := "bloat" } emptyState emptyState
  have h2 := considerUsedModules_forbidden_abort c4EnvImplicit c4ModImplicit true [] [] c4Edge
    "evil.py" { forbidden_name := "evil2", avoided_name := "bloat2" }
    { forbidden_name := "evil2", avoided_name := "bloat2" } emptyState emptyState
  exact ⟨h1.1 rfl rfl rfl rfl, h2.2 rfl rfl⟩

/-- The usable matches of a glob pattern: plain files that are not stale
bytecode artifacts. -/
def usableMatches (env : Env) (pat : String) : List String :=
  (env.iglob pat).filter (fun fn => !strEndsWith fn ".pyc" && env.isFile fn)

/-- Append the one `"Didn't match any files"` warning. -/
def addPatternWarning (pat : String) (s : RecState) : RecState :=
  { s with warnings := s.warnings ++ [patternWarning pat] }

theorem patternLoop_fold (env : Env) (fuel : Nat) :
    ∀ (l : List String) (found : Bool) (s : RecState),
      patternLoop env fuel l found s
        = (match singlePathLoop (fun f p st => checkPluginSinglePath env fuel f p st) none
              (l.filter (fun fn => !strEndsWith fn ".pyc" && env.isFile fn)) s with
           | .error m => .error m
           | .ok s1 =>
             .ok (s1, found || !(l.filter (fun fn => !strEndsWith fn ".pyc" && env.isFile fn)).isEmpty)) := by
  intro l
  induction l with
  | nil =>
    intro found s
    simp [patternLoop, singlePathLoop]
  | cons fn rest ih =>
    intro found s
    by_cases h1 : strEndsWith fn ".pyc" = true
    · simp [patternLoop, h1, ih]
    · have h1' : strEndsWith fn ".pyc" = false := by
        simpa using h1
      by_cases h2 : env.isFile fn = true
      · rw [patternLoop]
        rw [if_neg (by simp [h1']), if_neg (by simp [h2])]
        have hfil : List.filter (fun x => !strEndsWith x ".pyc" && env.isFile x) (fn :: rest)
            = fn :: List.filter (fun x => !strEndsWith x ".pyc" && env.isFile x) rest := by
          simp [List.filter_cons, h1', h2]
        rw [hfil]
        cases hc : checkPluginSinglePath env fuel fn none s with
        | error m => simp [singlePathLoop, hc]
        | ok s1 =>
          dsimp only
          rw [ih true s1]
          simp only [singlePathLoop, hc]
          cases hl : singlePathLoop (fun f p st => checkPluginSinglePath env fuel f p st) none
              (List.filter (fun x => !strEndsWith x ".pyc" && env.isFile x) rest) s1 with
          | error m => simp
          | ok s2 => simp
      · have h2' : env.isFile fn = false := by
          cases hf : env.isFile fn
          · rfl
          · exact absurd hf h2
        rw [patternLoop]
        rw [if_neg (by simp [h1']), if_pos h2']
        have hfil : List.filter (fun x => !strEndsWith x ".pyc" && env.isFile x) (fn :: rest)
            = List.filter (fun x => !strEndsWith x ".pyc" && env.isFile x) rest := by
          simp [List.filter_cons, h2']
        rw [ih found s, hfil]

/-- C9: `checkPluginFilenamePattern` expands the glob and delegates exactly
the usable matches — plain files that are not `.pyc` artifacts — to the
single-path check, in order; the one `"Didn't match any files"` warning is
appended exactly when no usable match exists, and with zero usable matches
the result is only that warning, with nothing included. -/
theorem checkPluginFilenamePattern_delegates (env : Env) (fuel : Nat) (pat : String)
    (s : RecState) (hdir : env.isDir pat = false) :
    checkPluginFilenamePattern env fuel pat s
      = (match singlePathLoop (fun f p st => checkPluginSinglePath env fuel f p st) none
            (usableMatches env pat)
            (infoLog env ("Checking plug-in pattern '" ++ pat ++ "':") s) with
         | .error m => .error m
         | .ok s1 => .ok (if (usableMatches env pat).isEmpty then addPatternWarning pat s1 else s1))
    ∧ (usableMatches env pat = [] →
      checkPluginFilenamePattern env fuel pat s
        = .ok (addPatternWarning pat
            (infoLog env ("Checking plug-in pattern '" ++ pat ++ "':") s))) := by
  have hmain : checkPluginFilenamePattern env fuel pat s
      = (match singlePathLoop (fun f p st => checkPluginSinglePath env fuel f p st) none
            (usableMatches env pat)
            (infoLog env ("Checking plug-in pattern '" ++ pat ++ "':") s) with
         | .error m => .error m
         | .ok s1 => .ok (if (usableMatches env pat).isEmpty then addPatternWarning pat s1 else s1)) := by
    unfold checkPluginFilenamePattern
    rw [if_neg (by simp [hdir])]
    rw [patternLoop_fold env fuel (env.iglob pat) false
      (infoLog env ("Checking plug-in pattern '" ++ pat ++ "':") s)]
    cases hc : singlePathLoop (fun f p st => checkPluginSinglePath env fuel f p st) none
        (usableMatches env pat)
        (infoLog env ("Checking plug-in pattern '" ++ pat ++ "':") s) with
    | error m => simp [usableMatches] at hc; simp [hc]
    | ok s1 =>
      simp [usableMatches] at hc
      simp only [hc]
      cases he : (env.iglob pat).filter (fun fn => !strEndsWith fn ".pyc" && env.isFile fn) with
      | nil => simp [usableMatches, he, addPatternWarning]
      | cons a l => simp [usableMatches, he, addPatternWarning]
  refine ⟨hmain, ?_⟩
  intro hempty
  rw [hmain, hempty]
  simp [singlePathLoop]

/-- The C9 witness environment whose glob yields only a stale bytecode
artifact, so no usable match exists. -/
def c9Env : Env :=
  { baseEnv with iglob := fun _ => ["plugins/x.pyc"] }

/-- The C9 witness environment whose glob yields one usable source file. -/
def c9EnvB : Env :=
  { baseEnv with iglob := fun _ => ["plugins/p.py"] }

/-- C9 witness: zero usable matches produce exactly the one warning and no
inclusion; a usable match is delegated to the single-path check. -/
theorem checkPluginFilenamePattern_delegates_witness :
    checkPluginFilenamePattern c9Env 3 "plugins/*.ext" emptyState
      = .ok (addPatternWarning "plugins/*.ext" emptyState)
    ∧ checkPluginFilenamePattern c9EnvB 3 "plugins/*.py" emptyState
      = singlePathLoop (fun f p st => checkPluginSinglePath c9EnvB 3 f p st) none
          ["plugins/p.py"] emptyState := by
  have h1 := checkPluginFilenamePattern_delegates c9Env 3 "plugins/*.ext" emptyState rfl
  have h2 := checkPluginFilenamePattern_delegates c9EnvB 3 "plugins/*.py" emptyState rfl
  constructor
  · rw [h1.2 rfl]
    rfl
  · rw [h2.1]
    rfl

/-- The immediate children of a package directory that the source's
traversal actually single-path-checks: children other than `__init__.py` and
`__pycache__` that are either package directories not shadowed by a
same-named `.py` file, or `.py` source files. -/
def packageTraversalTargets (env : Env) (listing : List (String × String)) : List String :=
  listing.filterMap (fun child =>
    if child.2 = "__init__.py" ∨ child.2 = "__pycache__" then none
    else if env.isPackageDir child.1 = true ∧ env.pathExists (child.1 ++ ".py") = false then
      some child.1
    else if strEndsWith child.1 ".py" then some child.1
    else none)

/-- Follows the claim's words (C7): the immediate children excluding the
entry named `__init__.py` and the directory named `__pycache__` — each of
which the claim says is single-path-checked. -/
def perClaimChildren (listing : List (String × String)) : List String :=
  listing.filterMap (fun child =>
    if child.2 = "__init__.py" ∨ child.2 = "__pycache__" then none else some child.1)

theorem packageChildLoop_eq_targets (env : Env)
    (sp : String → Option ModuleName → RecState → Except String RecState) (pkg : ModuleName) :
    ∀ (listing : List (String × String)) (s : RecState),
      packageChildLoop env sp pkg listing s
        = singlePathLoop sp (some pkg) (packageTraversalTargets env listing) s := by
  intro listing
  induction listing with
  | nil =>
    intro s
    simp [packageChildLoop, packageTraversalTargets, singlePathLoop]
  | cons c rest ih =>
    intro s
    by_cases h1 : c.2 = "__init__.py" ∨ c.2 = "__pycache__"
    · rw [packageChildLoop]
      have hstep : packageChildStep env sp pkg s c = .ok s := by
        simp [packageChildStep, h1]
      rw [hstep]
      have htgt : packageTraversalTargets env (c :: rest) = packageTraversalTargets env rest := by
        simp [packageTraversalTargets, List.filterMap_cons, h1]
      rw [htgt]
      exact ih s
    · by_cases h2 : env.isPackageDir c.1 = true ∧ env.pathExists (c.1 ++ ".py") = false
      · rw [packageChildLoop]
        have hstep : packageChildStep env sp pkg s c = sp c.1 (some pkg) s := by
          simp [packageChildStep, h1, h2]
        rw [hstep]
        have htgt : packageTraversalTargets env (c :: rest)
            = c.1 :: packageTraversalTargets env rest := by
          simp [packageTraversalTargets, List.filterMap_cons, h1, h2]
        rw [htgt, singlePathLoop]
        cases hc : sp c.1 (some pkg) s with
        | error m => rfl
        | ok s1 => exact ih s1
      · by_cases h3 : strEndsWith c.1 ".py" = true
        · rw [packageChildLoop]
          have hstep : packageChildStep env sp pkg s c = sp c.1 (some pkg) s := by
            simp [packageChildStep, h1, h2, h3]
          rw [hstep]
          have htgt : packageTraversalTargets env (c :: rest)
              = c.1 :: packageTraversalTargets env rest := by
            simp [packageTraversalTargets, List.filterMap_cons, h1, h2, h3]
          rw [htgt, singlePathLoop]
          cases hc : sp c.1 (some pkg) s with
          | error m => rfl
          | ok s1 => exact ih s1
        · rw [packageChildLoop]
          have hstep : packageChildStep env sp pkg s c = .ok s := by
            simp [packageChildStep, h1, h2, h3]
          rw [hstep]
          have htgt : packageTraversalTargets env (c :: rest)
              = packageTraversalTargets env rest := by
            simp [packageTraversalTargets, List.filterMap_cons, h1, h2, h3]
          rw [htgt]
          exact ih s

/-- C7 as amended: after a filesystem-backed (non-namespace) package is
included and registered as a root, the children of its directory that are
single-path-checked — each exactly once, in listing order — are exactly
those other than the init entry `__init__.py` and the bytecode-cache
directory `__pycache__` that are package directories not shadowed by a
same-named `.py` file or `.py` source files; children of any other shape
(for example data files) are not checked, contrary to the claim's
"immediate children ... are each recursively single-path-checked". -/
theorem addIncludedModule_real_package_traversal (env : Env) (fuel : Nat)
    (module : ModuleRecord) (s : RecState)
    (hpkg : module.recordKind = .compiledPackage ∨ module.recordKind = .uncompiledPackage)
    (hreal : env.isDir module.module_filename = false) :
    _addIncludedModule env fuel module s
      = singlePathLoop (fun f p st => checkPluginSinglePath env fuel f p st)
          (some module.module_name)
          (packageTraversalTargets env (env.listDir (env.dirname module.module_filename)))
          (infoLog env ("Package directory '" ++ env.dirname module.module_filename ++ "'.")
            (addRootModule module (includedBase env module s))) := by
  unfold _addIncludedModule addIncludedCore
  rw [if_pos hpkg]
  dsimp only
  simp only [hreal, Bool.false_eq_true, if_false]
  exact packageChildLoop_eq_targets env _ module.module_name _ _

/-- The C7 counterexample environment: a real package directory `pkg`
holding its init file and a plain data file. -/
def c7Env : Env :=
  { baseEnv with
    options := { baseOptions with isShowInclusion := true }
    listDir := fun _ => [("pkg/__init__.py", "__init__.py"), ("pkg/data.txt", "data.txt")]
    dirname := fun _ => "pkg" }

/-- The C7 counterexample package record, backed by `pkg/__init__.py`. -/
def c7Mod : ModuleRecord :=
  { module_name := ["pkg"], module_filename := "pkg/__init__.py", module_kind := "py"
    source_ref := "pkg/__init__.py:1", recordKind := .compiledPackage, used_modules := [] }

/-- C7 counterexample: the claim says every immediate child other than the
init entry and `__pycache__` is single-path-checked, so the data file
`pkg/data.txt` would have to be (it is in `perClaimChildren`); but the run
— with inclusion logging on, so every single-path check would log a
"Checking detail plug-in path" line — performs no single-path check at all:
the traversal target list is empty and the info log holds only the
inclusion and package-directory lines. -/
theorem addIncludedModule_checks_every_child_counterexample :
    (_addIncludedModule c7Env 2 c7Mod emptyState).map RecState.infos
      = .ok ["Included 'pkg'.", "Package directory 'pkg'."]
    ∧ perClaimChildren (c7Env.listDir "pkg") = ["pkg/data.txt"]
    ∧ packageTraversalTargets c7Env (c7Env.listDir "pkg") = [] := by
  refine ⟨rfl, rfl, rfl⟩

/-- The C7 witness environment: a real package directory with the init
entry, a bytecode-cache directory, a source file and a data file. -/
def c7EnvB : Env :=
  { baseEnv with
    options := { baseOptions with isShowInclusion := true }
    listDir := fun _ =>
      [("pkg/__init__.py", "__init__.py"), ("pkg/__pycache__", "__pycache__"),
        ("pkg/sub.py", "sub.py"), ("pkg/data.txt", "data.txt")]
    dirname := fun _ => "pkg" }

/-- C7 witness: at the concrete listing, the traversal equals one
single-path check of exactly the `.py` child. -/
theorem addIncludedModule_real_package_traversal_witness :
    _addIncludedModule c7EnvB 2 c7Mod emptyState
      = singlePathLoop (fun f p st => checkPluginSinglePath c7EnvB 2 f p st) (some ["pkg"])
          ["pkg/sub.py"]
          (infoLog c7EnvB "Package directory 'pkg'."
            (addRootModule c7Mod (includedBase c7EnvB c7Mod emptyState)))
    ∧ packageTraversalTargets c7EnvB (c7EnvB.listDir "pkg") = ["pkg/sub.py"] := by
  have h := addIncludedModule_real_package_traversal c7EnvB 2 c7Mod emptyState
    (Or.inl rfl) rfl
  exact ⟨h, rfl⟩

theorem infoLog_signals (env : Env) (msg : String) (s : RecState) :
    (infoLog env msg s).signals = s.signals := by
  unfold infoLog
  split <;> rfl

theorem includedBase_signals (env : Env) (m : ModuleRecord) (s : RecState) :
    (includedBase env m s).signals = s.signals := by
  simp [includedBase, infoLog_signals]

theorem recurseTo_no_callback_signals (env : Env) (n : ModuleName) (fn k : String)
    (u : Option ModuleName) (sr : Option String) (r : String) (s : RecState) :
    ((recurseTo env false n fn k u sr r s).2).signals = s.signals := by
  unfold recurseTo
  cases hm : getImportedModuleByNameAndPath s.importCache n fn with
  | some m => rfl
  | none => simp [_recurseTo]

theorem packageChildLoop_signals (env : Env)
    (sp : String → Option ModuleName → RecState → Except String RecState)
    (hsp : ∀ f p st st1, sp f p st = .ok st1 → st1.signals = st.signals) (pkg : ModuleName) :
    ∀ (listing : List (String × String)) (s s1 : RecState),
      packageChildLoop env sp pkg listing s = .ok s1 → s1.signals = s.signals := by
  intro listing
  induction listing with
  | nil =>
    intro s s1 h
    simp only [packageChildLoop, Except.ok.injEq] at h
    rw [← h]
  | cons c rest ih =>
    intro s s1 h
    rw [packageChildLoop] at h
    cases hc : packageChildStep env sp pkg s c with
    | error m =>
      rw [hc] at h
      exact absurd h (by simp)
    | ok st =>
      rw [hc] at h
      have h3 : st.signals = s.signals := by
        unfold packageChildStep at hc
        split at hc
        · simp only [Except.ok.injEq] at hc
          rw [← hc]
        · split at hc
          · exact hsp _ _ _ _ hc
          · split at hc
            · exact hsp _ _ _ _ hc
            · simp only [Except.ok.injEq] at hc
              rw [← hc]
      rw [ih st s1 h, h3]

theorem addIncludedCore_signals (env : Env)
    (sp : String → Option ModuleName → RecState → Except String RecState)
    (hsp : ∀ f p st st1, sp f p st = .ok st1 → st1.signals = st.signals) :
    ∀ (m : ModuleRecord) (s s1 : RecState),
      addIncludedCore env sp m s = .ok s1 → s1.signals = s.signals := by
  intro m s s1 h
  unfold addIncludedCore at h
  dsimp only at h
  have hbase : ∀ (b : Bool), ((if b = true then includedBase env m s
      else addRootModule m (includedBase env m s))).signals = s.signals := by
    intro b
    cases b
    · simp [addRootModule, includedBase_signals]
    · simp [includedBase_signals]
  split at h
  · have hl := packageChildLoop_signals env sp hsp m.module_name _ _ _ h
    rw [hl, infoLog_signals, hbase]
  · split at h
    · simp only [Except.ok.injEq] at h
      rw [← h]
      simp [addRootModule, includedBase_signals]
    · split at h
      · simp only [Except.ok.injEq] at h
        rw [← h]
        cases hsm : env.options.isStandaloneMode
        · simp [hsm, includedBase_signals]
        · simp [hsm, addRootModule, includedBase_signals]
      · exact absurd h (by simp)

theorem decideRecursion_snd_signals (env : Env) (fn : String) (n : ModuleName) (k : String)
    (er : Bool) (s : RecState) (p : Except ForbiddenImport (Option Bool × String) × RecState)
    (h : decideRecursion env fn n k er s = p) : p.2.signals = s.signals := by
  rw [← h]
  exact (decideRecursion_state_frame env fn n k er s).2.1

theorem singlePathCore_signals (env : Env)
    (ai : ModuleRecord → RecState → Except String RecState)
    (hai : ∀ m st st1, ai m st = .ok st1 → st1.signals = st.signals) :
    ∀ (fn : String) (pkg : Option ModuleName) (s s1 : RecState),
      singlePathCore env ai fn pkg s = .ok s1 → s1.signals = s.signals := by
  intro fn pkg s s1 h
  unfold singlePathCore at h
  dsimp only at h
  split at h
  · simp only [Except.ok.injEq] at h
    rw [← h]
    split
    · simp [infoLog_signals]
    · simp [infoLog_signals]
  · split at h
    · exact absurd h (by simp)
    · rename_i d reason s2 heq
      have hs2 : s2.signals = s.signals := by
        have hf := decideRecursion_snd_signals _ _ _ _ _ _ _ heq
        simp only at hf
        rw [hf]
        split
        · simp [infoLog_signals]
        · simp [infoLog_signals]
      split at h
      · have h2 := hai _ _ _ h
        rw [h2, recurseTo_no_callback_signals, hs2]
      · simp only [Except.ok.injEq] at h
        rw [← h]
        simpa using hs2

theorem checkPluginSinglePath_signals (env : Env) :
    ∀ (fuel : Nat) (fn : String) (pkg : Option ModuleName) (s s1 : RecState),
      checkPluginSinglePath env fuel fn pkg s = .ok s1 → s1.signals = s.signals := by
  intro fuel
  induction fuel with
  | zero =>
    intro fn pkg s s1 h
    rw [checkPluginSinglePath] at h
    exact absurd h (by simp)
  | succ f ih =>
    intro fn pkg s s1 h
    rw [checkPluginSinglePath] at h
    exact singlePathCore_signals env _
      (fun m st st1 hh => addIncludedCore_signals env _
        (fun f2 p2 st2 st3 hhh => ih f2 p2 st2 st3 hhh) m st st1 hh)
      fn pkg s s1 h

/-- C6 counterexample: `checkPluginSinglePath` genuinely builds a fresh
module (one Builder invocation, `is_added` true) through the explicit-path
route, yet the signal log stays empty — the walker passes
`signal_change=None` to `recurseTo` (line 301), so the claim's "invoked
exactly once ... including when the module is first built through the
filesystem/pattern walker's explicit-path route" fails at this input. -/
theorem signalNewCode_explicit_path_counterexample :
    (checkPluginSinglePath baseEnv 2 "p.py" none emptyState).map
        (fun st => (st.builderCalls, st.signals))
      = .ok ([(["p"], "p.py", "py")], []) := by
  rfl

/-- C6 as amended: the new-code signal is raised exactly once, with the
module's source reference as origin and the inclusion reason, when a
genuinely new build (`is_added`) happens through `recurseTo` with a signal
callback; a cache hit raises none; and the filesystem walker's explicit-path
route (`checkPluginSinglePath`), which passes no callback, never raises the
signal. -/
theorem signalNewCode_once_per_new_edge_build (env : Env) (n : ModuleName) (fn k : String)
    (u : Option ModuleName) (sr : Option String) (r : String) (s : RecState) :
    (getImportedModuleByNameAndPath s.importCache n fn = none →
      (env.buildModule n fn k).is_added = true →
      ((recurseTo env true n fn k u sr r s).2).signals
        = s.signals ++ [("new_code", (env.buildModule n fn k).source_ref, r)])
    ∧ (∀ m, getImportedModuleByNameAndPath s.importCache n fn = some m →
      ((recurseTo env true n fn k u sr r s).2).signals = s.signals)
    ∧ (∀ (fuel : Nat) (fn2 : String) (pkg : Option ModuleName) (s2 s3 : RecState),
      checkPluginSinglePath env fuel fn2 pkg s2 = .ok s3 → s3.signals = s2.signals) := by
  refine ⟨?_, ?_, fun fuel fn2 pkg s2 s3 h => checkPluginSinglePath_signals env fuel fn2 pkg s2 s3 h⟩
  · intro hm hadd
    unfold recurseTo
    rw [hm]
    simp [_recurseTo, mkModuleRecord, hadd]
  · intro m hm
    rw [recurseTo_hit env true n fn k u sr r s m hm]

/-- The record built by the C6 witness run. -/
def c6Record : ModuleRecord :=
  { module_name := ["p"], module_filename := "p.py", module_kind := "py"
    source_ref := "src:1", recordKind := .compiledModule, used_modules := [] }

/-- The state after the C6 witness run of the explicit-path route. -/
def c6FinalState : RecState :=
  { importCache := [((["p"], "p.py"), c6Record), ((["p"], "p.py"), c6Record)]
    decisionCache := [(("p.py", ["p"], "py", true), (some true, "Lives in plug-in directory."))]
    builderCalls := [(["p"], "p.py", "py")]
    recursionHookCalls := [("p.py", ["p"], "py", none, none)]
    signals := [], warnings := [], infos := []
    rootModules := [c6Record], usedModuleRegs := [] }

/-- C6 witness: one signal with origin and reason for a fresh build with a
callback; no further signal on the repeated request; no signal from the
explicit-path route. -/
theorem signalNewCode_once_per_new_edge_build_witness :
    ((recurseTo baseEnv true ["a"] "a.py" "py" none none "why" emptyState).2).signals
      = [("new_code", "src:1", "why")]
    ∧ ((recurseTo baseEnv true ["a"] "a.py" "py" none none "why2"
          (recurseTo baseEnv true ["a"] "a.py" "py" none none "why" emptyState).2).2).signals
      = ((recurseTo baseEnv true ["a"] "a.py" "py" none none "why" emptyState).2).signals
    ∧ c6FinalState.signals = emptyState.signals := by
  have h := signalNewCode_once_per_new_edge_build baseEnv ["a"] "a.py" "py" none none
    "why" emptyState
  have h2 := signalNewCode_once_per_new_edge_build baseEnv ["a"] "a.py" "py" none none
    "why2" (recurseTo baseEnv true ["a"] "a.py" "py" none none "why" emptyState).2
  refine ⟨?_, ?_, ?_⟩
  · rw [h.1 rfl rfl]
    rfl
  · exact h2.2.1 (recurseTo baseEnv true ["a"] "a.py" "py" none none "why" emptyState).1 rfl
  · exact h.2.2 2 "p.py" none emptyState c6FinalState rfl

end Nuitka
